import Mathlib

/-!
A shallow embedding of the SAM inference driver (src/predict.py) and its
logging utility (src/tools/log_mode.py), together with theorems settling
the specification claims about prompt forwarding, CLI mode dispatch,
result persistence, and the logging manager's file and console sinks.

External side effects (loguru handler registration, directory creation,
the current date from time.strftime) are modelled by explicit state and by
passing the date string as a parameter; the segmentation library is
opaque, so constructing a model is recorded as the constructor invoked
together with the model file handed to it.
-/

namespace SAMRepo

/- ========================= src/predict.py ========================= -/

/-- The three external-library constructors predict.py imports
(lines 13-14): SAM, SAM2VideoPredictor, SAM2DynamicInteractivePredictor. -/
inductive ModelCtor where
  | SAM
  | SAM2VideoPredictor
  | SAM2DynamicInteractivePredictor
  deriving DecidableEq, Repr

/-- The model wrapper stored in self.model: which external constructor was
invoked and which model file was handed to it (the argument of SAM(...),
or the model entry of the overrides dict for the predictor classes). -/
structure ModelWrapper where
  ctor : ModelCtor
  modelFile : String
  deriving DecidableEq, Repr

/-- Mode dispatch of SAMPredictor.__init__ (predict.py lines 31-46):
modes image and video2img call SAM(model_path); mode video calls
SAM2VideoPredictor with model=model_path in its overrides; mode DynVideo
calls SAM2DynamicInteractivePredictor with the hardcoded model file
sam2_t.pt (line 45). Any other mode string matches no branch, so
self.model is never assigned: modelled as none. -/
def samPredictorInit (model_path : String) (mode : String) : Option ModelWrapper :=
  if mode = "image" ∨ mode = "video2img" then
    some { ctor := ModelCtor.SAM, modelFile := model_path }
  else if mode = "video" then
    some { ctor := ModelCtor.SAM2VideoPredictor, modelFile := model_path }
  else if mode = "DynVideo" then
    some { ctor := ModelCtor.SAM2DynamicInteractivePredictor, modelFile := "sam2_t.pt" }
  else
    none

/-- Log lines emitted inside the DynVideo branch of SAMPredictor.__init__
(predict.py lines 41-42): the branch banner and the record of the
configured model_path, which the branch logs but does not use. -/
def dynVideoInitLogs (model_path : String) : List String :=
  ["🚀 模式为DynVideo，处理动态交互模式...", "model_path: " ++ model_path]

/-- The arguments SAMPredictor.__call__ forwards to the wrapped model
(predict.py line 61). The call is
self.model(input_data, points=points, labels=labels): no bboxes keyword
appears in it, so the model receives its default None for bounding boxes. -/
structure ModelCallArgs where
  input_data : String
  bboxes : Option (List (List Int))
  points : Option (List (List Int))
  labels : Option (List Int)
  deriving DecidableEq, Repr

/-- Model of SAMPredictor.__call__ (predict.py lines 52-61): after logging
its four arguments it invokes the model with the input, points and labels
only, leaving the model's bboxes at its default None. -/
def samPredictorCall (input_data : String) (bboxes : Option (List (List Int)))
    (points : Option (List (List Int))) (labels : Option (List Int)) : ModelCallArgs :=
  { input_data := input_data, bboxes := none, points := points, labels := labels }

/-- The CLI mode choices of parse_args (predict.py line 151). -/
def cliModeChoices : List String := ["img", "video2img", "video", "DynVideo"]

/-- Outcome of the result-persistence branch at the end of the script. -/
inductive SaveOutcome where
  | saved
  | warnedMultiple
  | errorNone
  deriving DecidableEq, Repr

/-- Result persistence at the end of the main block (predict.py lines
197-202): exactly one result is saved to the configured output path; more
than one result only logs a warning; zero results logs an error. -/
def persistResults (numResults : Nat) : SaveOutcome :=
  if numResults = 1 then SaveOutcome.saved
  else if numResults > 1 then SaveOutcome.warnedMultiple
  else SaveOutcome.errorNone

/- ====================== src/tools/log_mode.py ====================== -/

/-- The four severity levels the manager uses (LogConfig.VALID_LEVELS,
log_mode.py line 24). -/
inductive Level where
  | DEBUG
  | INFO
  | WARNING
  | ERROR
  deriving DecidableEq, Repr

/-- Numeric severities, LogConfig.LEVEL_PRIORITY (log_mode.py lines 25-30). -/
def LEVEL_PRIORITY : Level → Nat
  | Level.DEBUG => 0
  | Level.INFO => 1
  | Level.WARNING => 2
  | Level.ERROR => 3

/-- Model of LogConfig.VALID_LEVELS (log_mode.py line 24). -/
def VALID_LEVELS : List String := ["DEBUG", "INFO", "WARNING", "ERROR"]

/-- Canonical spelling of a level, as stored in self.run_mode. -/
def levelName : Level → String
  | Level.DEBUG => "DEBUG"
  | Level.INFO => "INFO"
  | Level.WARNING => "WARNING"
  | Level.ERROR => "ERROR"

/-- Recognise an already upper-cased level string: parseLevel s = some L
exactly when s is in VALID_LEVELS. -/
def parseLevel (s : String) : Option Level :=
  if s = "DEBUG" then some Level.DEBUG
  else if s = "INFO" then some Level.INFO
  else if s = "WARNING" then some Level.WARNING
  else if s = "ERROR" then some Level.ERROR
  else none

/-- Model of the Python str.upper() calls on level strings (log_mode.py
lines 52 and 186), applied characterwise; the level strings involved are
ASCII, where Char.toUpper agrees with Python. -/
def strUpper (s : String) : String :=
  String.mk (s.data.map Char.toUpper)

/-- A loguru file handler as registered by _config_file_handlers
(log_mode.py lines 87-139): target path, rotation size in MB, retention
count, minimum severity, and the category its filter closure compares
against. The constant format and encoding strings are elided. -/
structure FileHandler where
  path : String
  rotationMB : Nat
  retention : Nat
  level : Level
  filterCategory : String
  deriving DecidableEq, Repr

/-- The console handler registered by _config_console_handler (log_mode.py
lines 171-176): minimum severity self.run_mode and the same category
filter as the file handlers. -/
structure ConsoleHandler where
  level : Level
  filterCategory : String
  deriving DecidableEq, Repr

/-- The mutable attributes of a LogManager (log_mode.py lines 56-65). -/
structure LogManagerState where
  log_path : String
  run_mode : Level
  category : String
  file_handlers : List (String × FileHandler)
  console_handler : ConsoleHandler
  deriving DecidableEq, Repr

/-- Model of os.path.join for the relative components used here. -/
def pathJoin (a b : String) : String :=
  if a.endsWith "/" then a ++ b else a ++ "/" ++ b

/-- Model of LogManager._get_log_file_path (log_mode.py lines 75-85): the
file log_path/DATE/CATEGORY_MODE_DATE.log, with the current date passed in
as a parameter. -/
def getLogFilePath (log_path category date mode : String) : String :=
  pathJoin (pathJoin log_path date) (category ++ "_" ++ mode ++ "_" ++ date ++ ".log")

/-- Model of LogManager._config_file_handlers (log_mode.py lines 87-139):
registers one rotating file handler per severity, in source order error,
warning, info, debug, each rotating at LogConfig.MAX_ROTATION_MB = 200 MB,
retaining LogConfig.BACKUP_COUNT = 5 files, and filtering on the
manager's category. -/
def configFileHandlers (log_path category date : String) : List (String × FileHandler) :=
  [("error",
    { path := getLogFilePath log_path category date "error", rotationMB := 200,
      retention := 5, level := Level.ERROR, filterCategory := category }),
   ("warning",
    { path := getLogFilePath log_path category date "warning", rotationMB := 200,
      retention := 5, level := Level.WARNING, filterCategory := category }),
   ("info",
    { path := getLogFilePath log_path category date "info", rotationMB := 200,
      retention := 5, level := Level.INFO, filterCategory := category }),
   ("debug",
    { path := getLogFilePath log_path category date "debug", rotationMB := 200,
      retention := 5, level := Level.DEBUG, filterCategory := category })]

/-- Model of LogManager.__init__ (log_mode.py lines 44-73): upper-cases
and validates run_mode, raising ValueError on an invalid level; otherwise
registers the four file handlers and a console handler at level run_mode,
all filtering on the category. -/
def logManagerInit (log_path run_mode category date : String) :
    Except String LogManagerState :=
  match parseLevel (strUpper run_mode) with
  | none => Except.error ("初始日志级别无效：" ++ strUpper run_mode)
  | some lvl =>
      Except.ok
        { log_path := log_path, run_mode := lvl, category := category,
          file_handlers := configFileHandlers log_path category date,
          console_handler := { level := lvl, filterCategory := category } }

/-- Model of LogManager.set_log_level (log_mode.py lines 179-203) as a
state transformer returning the resulting state together with ok or the
raised ValueError. Validation happens before any assignment, so a raise
leaves the state untouched; an unchanged level returns early; otherwise
only run_mode and the console handler are replaced. -/
def setLogLevel (st : LogManagerState) (level : String) :
    LogManagerState × Except String Unit :=
  match parseLevel (strUpper level) with
  | none => (st, Except.error ("无效的日志级别：" ++ strUpper level))
  | some lvl =>
      if st.run_mode = lvl then (st, Except.ok ())
      else
        ({ st with run_mode := lvl,
                   console_handler := { level := lvl, filterCategory := st.category } },
         Except.ok ())

/-- Model of LogManager.get_current_level (log_mode.py lines 221-223). -/
def getCurrentLevel (st : LogManagerState) : String :=
  levelName st.run_mode

/-- A loguru record as seen by a handler filter: severity, the bound
extra category (if any), and the message. -/
structure LogRecord where
  level : Level
  category : Option String
  message : String
  deriving DecidableEq, Repr

/-- Whether a file handler writes a record: loguru admits records at or
above the handler's level, and the registered filter closure requires the
record's bound category to equal the manager's category. -/
def FileHandler.accepts (h : FileHandler) (r : LogRecord) : Bool :=
  decide (LEVEL_PRIORITY h.level ≤ LEVEL_PRIORITY r.level ∧
          r.category = some h.filterCategory)

/-- Whether the console handler prints a record: the same level threshold
and category filter as the file handlers (log_mode.py lines 171-176). -/
def consolePrints (c : ConsoleHandler) (r : LogRecord) : Bool :=
  decide (LEVEL_PRIORITY c.level ≤ LEVEL_PRIORITY r.level ∧
          r.category = some c.filterCategory)

/-- The record produced by the debug, info, warning and error methods
(log_mode.py lines 205-219): each binds category=self.category before
emitting at its severity. -/
def LogManagerState.emit (st : LogManagerState) (lvl : Level) (msg : String) : LogRecord :=
  { level := lvl, category := some st.category, message := msg }

/-- The acceptance verdict of each registered file handler on a record, in
registration order. -/
def sinkVerdicts (hs : List (String × FileHandler)) (r : LogRecord) : List Bool :=
  hs.map (fun p => FileHandler.accepts p.2 r)

/-- Whether any sink of the manager, file handler or console, writes the
record. -/
def anySinkWrites (st : LogManagerState) (r : LogRecord) : Bool :=
  (st.file_handlers.any (fun p => FileHandler.accepts p.2 r)) ||
    consolePrints st.console_handler r

/-- The minimum severities of the registered file handlers, in
registration order. -/
def fileHandlerLevels (hs : List (String × FileHandler)) : List Level :=
  hs.map (fun p => (p.2).level)

/-- Invariant maintained by the constructor and by set_log_level: the
console handler mirrors run_mode and the manager's category. -/
def consoleInv (st : LogManagerState) : Prop :=
  st.console_handler.level = st.run_mode ∧
    st.console_handler.filterCategory = st.category

/-- Every sink registered by the manager filters on its category. -/
def sinksFilterByCategory (st : LogManagerState) : Prop :=
  (∀ p ∈ st.file_handlers, (p.2).filterCategory = st.category) ∧
    st.console_handler.filterCategory = st.category

/- ========================= theorems: predict.py ========================= -/

/-- C1, counterexample: the claim that bounding boxes are passed through to
the model call fails — at a concrete invocation with bboxes [[0,0,10,10]],
the wrapped model is invoked with no bounding boxes at all. -/
theorem call_drops_bboxes_counterexample :
    ¬ (samPredictorCall "img.png" (some [[0, 0, 10, 10]]) (some [[5, 5]])
        (some [1])).bboxes = some [[0, 0, 10, 10]] := by
  decide

/-- C1, amended: SAMPredictor.__call__ forwards the input together with
exactly the given points and labels to the wrapped model, while the given
bounding boxes are accepted (and logged) but not forwarded: the model call
carries no bboxes keyword, so the model sees None for bounding boxes. -/
theorem call_forwards_points_labels_not_bboxes (input_data : String)
    (bboxes points : Option (List (List Int))) (labels : Option (List Int)) :
    (samPredictorCall input_data bboxes points labels).input_data = input_data ∧
    (samPredictorCall input_data bboxes points labels).points = points ∧
    (samPredictorCall input_data bboxes points labels).labels = labels ∧
    (samPredictorCall input_data bboxes points labels).bboxes = none :=
  ⟨rfl, rfl, rfl, rfl⟩

/-- C2: the CLI accepts the mode string img (not image), yet the
SAMPredictor constructor has no dispatch branch for img — with that mode
no model is constructed (self.model is never assigned, so the run crashes
at first use) — while the string image, which does take the SAM branch, is
not accepted by the CLI. This evaluates the code at the failing input
mode = img. -/
theorem cli_mode_img_has_no_dispatch_branch (model_path : String) :
    "img" ∈ cliModeChoices ∧
    "image" ∉ cliModeChoices ∧
    samPredictorInit model_path "img" = none ∧
    samPredictorInit model_path "image" =
      some { ctor := ModelCtor.SAM, modelFile := model_path } := by
  refine ⟨by decide, by decide, ?_, ?_⟩ <;> rfl

/-- C3: constructed with mode DynVideo, the model wrapper is built by
SAM2DynamicInteractivePredictor with the hardcoded model file sam2_t.pt,
whatever model_path was supplied; the configured model_path is logged in
that branch but not used. -/
theorem dynvideo_hardcodes_model_file (model_path : String) :
    samPredictorInit model_path "DynVideo" =
      some { ctor := ModelCtor.SAM2DynamicInteractivePredictor,
             modelFile := "sam2_t.pt" } ∧
    ("model_path: " ++ model_path) ∈ dynVideoInitLogs model_path := by
  exact ⟨rfl, by simp [dynVideoInitLogs]⟩

/-- C4, counterexample: the claim that each of the four modes invokes a
different external-library constructor fails — modes image and video2img
invoke the same constructor, SAM. -/
theorem image_video2img_same_ctor_counterexample :
    (samPredictorInit "sam_b.pt" "image").map ModelWrapper.ctor =
      (samPredictorInit "sam_b.pt" "video2img").map ModelWrapper.ctor ∧
    (samPredictorInit "sam_b.pt" "image").map ModelWrapper.ctor =
      some ModelCtor.SAM := by
  decide

/-- C4, amended: the mode switch selects among three distinct
external-library constructors — image and video2img both invoke SAM, video
invokes SAM2VideoPredictor, and DynVideo invokes
SAM2DynamicInteractivePredictor, and those three constructors are pairwise
distinct. -/
theorem mode_switch_three_distinct_ctors (model_path : String) :
    (samPredictorInit model_path "image").map ModelWrapper.ctor = some ModelCtor.SAM ∧
    (samPredictorInit model_path "video2img").map ModelWrapper.ctor = some ModelCtor.SAM ∧
    (samPredictorInit model_path "video").map ModelWrapper.ctor =
      some ModelCtor.SAM2VideoPredictor ∧
    (samPredictorInit model_path "DynVideo").map ModelWrapper.ctor =
      some ModelCtor.SAM2DynamicInteractivePredictor ∧
    ModelCtor.SAM ≠ ModelCtor.SAM2VideoPredictor ∧
    ModelCtor.SAM ≠ ModelCtor.SAM2DynamicInteractivePredictor ∧
    ModelCtor.SAM2VideoPredictor ≠ ModelCtor.SAM2DynamicInteractivePredictor := by
  refine ⟨rfl, rfl, rfl, rfl, by decide, by decide, by decide⟩

/-- C5, counterexample: the claim that every run returning a result list
ends in a result save fails — a run returning two results is not saved,
it only triggers the warning branch. -/
theorem two_results_not_saved_counterexample :
    ¬ persistResults 2 = SaveOutcome.saved ∧
    persistResults 2 = SaveOutcome.warnedMultiple := by
  decide

/-- C5, amended: the driver saves the result to the configured output path
exactly when the inference call returns one result; with more than one
result it only logs a warning, and with zero results it only logs an
error. -/
theorem persist_saves_iff_single_result (numResults : Nat) :
    (persistResults numResults = SaveOutcome.saved ↔ numResults = 1) ∧
    (persistResults numResults = SaveOutcome.warnedMultiple ↔ 1 < numResults) ∧
    (persistResults numResults = SaveOutcome.errorNone ↔ numResults = 0) := by
  unfold persistResults
  split_ifs with h1 h2 <;>
    refine ⟨?_, ?_, ?_⟩ <;> simp_all <;> omega

/- ==================== theorems: tools/log_mode.py ==================== -/

/-- Whether an Except value models a call that returned normally rather
than raising. -/
def exceptOk {α β : Type} : Except α β → Bool
  | Except.ok _ => true
  | Except.error _ => false

theorem strUpper_levelName (L : Level) : strUpper (levelName L) = levelName L := by
  cases L <;> decide

theorem parseLevel_levelName (L : Level) : parseLevel (levelName L) = some L := by
  cases L <;> rfl

theorem parseLevel_eq_none_iff (s : String) :
    parseLevel s = none ↔ s ∉ VALID_LEVELS := by
  unfold parseLevel VALID_LEVELS
  split_ifs with h1 h2 h3 h4 <;> simp_all

/-- A concrete manager state: the attributes produced by constructing
LogManager("./logs/", "INFO", "default") on the date 2026-10-12. -/
def sampleState : LogManagerState :=
  { log_path := "./logs/", run_mode := Level.INFO, category := "default",
    file_handlers := configFileHandlers "./logs/" "default" "2026-10-12",
    console_handler := { level := Level.INFO, filterCategory := "default" } }

/-- C6: for every valid level L, after set_log_level(L) the console sink's
minimum printed severity is L — get_current_level returns L, and a record
emitted through the manager's own methods is printed to the console
exactly when its severity is at or above L. -/
theorem set_log_level_controls_console (st : LogManagerState) (L : Level)
    (hinv : consoleInv st) (lvl : Level) (msg : String) :
    getCurrentLevel ((setLogLevel st (levelName L)).1) = levelName L ∧
    (consolePrints ((setLogLevel st (levelName L)).1).console_handler
        (LogManagerState.emit ((setLogLevel st (levelName L)).1) lvl msg) = true ↔
      LEVEL_PRIORITY L ≤ LEVEL_PRIORITY lvl) := by
  obtain ⟨h1, h2⟩ := hinv
  have hp : parseLevel (strUpper (levelName L)) = some L := by
    rw [strUpper_levelName]; exact parseLevel_levelName L
  unfold setLogLevel
  rw [hp]
  by_cases hEq : st.run_mode = L
  · simp [hEq, getCurrentLevel, consolePrints, LogManagerState.emit, h1, h2, hEq ▸ h1]
  · simp [hEq, getCurrentLevel, consolePrints, LogManagerState.emit]

/-- C6 witness: applying the theorem to the sample state at target level
WARNING and an INFO record, which the console must not print. -/
theorem set_log_level_controls_console_witness :
    consoleInv sampleState ∧
    (getCurrentLevel ((setLogLevel sampleState (levelName Level.WARNING)).1) =
        levelName Level.WARNING ∧
      (consolePrints ((setLogLevel sampleState (levelName Level.WARNING)).1).console_handler
          (LogManagerState.emit ((setLogLevel sampleState (levelName Level.WARNING)).1)
            Level.INFO "hello") = true ↔
        LEVEL_PRIORITY Level.WARNING ≤ LEVEL_PRIORITY Level.INFO)) :=
  ⟨⟨rfl, rfl⟩,
   set_log_level_controls_console sampleState Level.WARNING ⟨rfl, rfl⟩ Level.INFO "hello"⟩

/-- C7: set_log_level changes only the console sink — whatever level
string it is called with, the four per-level file handlers are exactly the
ones registered before the call, and each file handler's verdict on any
record is unchanged, so every severity keeps being saved to its file. -/
theorem set_log_level_preserves_file_handlers (st : LogManagerState)
    (level : String) (r : LogRecord) :
    ((setLogLevel st level).1).file_handlers = st.file_handlers ∧
    sinkVerdicts ((setLogLevel st level).1).file_handlers r =
      sinkVerdicts st.file_handlers r := by
  have h : ((setLogLevel st level).1).file_handlers = st.file_handlers := by
    unfold setLogLevel
    cases parseLevel (strUpper level) with
    | none => rfl
    | some lvl => by_cases hEq : st.run_mode = lvl <;> simp [hEq]
  exact ⟨h, by rw [h]⟩

/-- C8: every sink of a manager filters by its category — a record whose
bound category differs from the manager's is written by no file handler
and not printed by the console, while records emitted through the
manager's own debug/info/warning/error methods always carry its
category. -/
theorem sinks_filter_by_category (st : LogManagerState)
    (h : sinksFilterByCategory st) (r : LogRecord)
    (hr : ¬ r.category = some st.category) (lvl : Level) (msg : String) :
    anySinkWrites st r = false ∧
    (LogManagerState.emit st lvl msg).category = some st.category := by
  obtain ⟨hf, hc⟩ := h
  refine ⟨?_, rfl⟩
  simp only [anySinkWrites, Bool.or_eq_false_iff, List.any_eq_false]
  constructor
  · intro p hp
    simp [FileHandler.accepts, hf p hp, hr]
  · simp [consolePrints, hc, hr]

/-- A concrete record bound to a category, other, that differs from the
sample manager's category, default. -/
def strayRecord : LogRecord :=
  { level := Level.ERROR, category := some "other", message := "stray" }

/-- C8 witness: in the sample manager (category default), a record bound
to category other reaches no sink, and an emitted record carries category
default. -/
theorem sinks_filter_by_category_witness :
    sinksFilterByCategory sampleState ∧
    anySinkWrites sampleState strayRecord = false ∧
    (LogManagerState.emit sampleState Level.DEBUG "m").category =
      some sampleState.category := by
  have h : sinksFilterByCategory sampleState := by
    constructor
    · decide
    · rfl
  have hr : ¬ strayRecord.category = some sampleState.category := by decide
  exact ⟨h,
    (sinks_filter_by_category sampleState h strayRecord hr Level.DEBUG "m").1,
    (sinks_filter_by_category sampleState h strayRecord hr Level.DEBUG "m").2⟩

/-- C9: every successfully constructed LogManager registers exactly one
rotating file sink per severity level — in registration order the error,
warning, info and debug handlers — each writing to the file
CATEGORY_LEVEL_DATE.log under the date-stamped directory log_path/DATE,
rotating at 200 MB, retaining 5 backups, and filtering on the manager's
category. -/
theorem init_one_rotating_sink_per_level (log_path run_mode category date : String)
    (st : LogManagerState)
    (h : logManagerInit log_path run_mode category date = Except.ok st) :
    st.file_handlers =
      [("error",
        { path := pathJoin (pathJoin log_path date)
            (category ++ "_" ++ "error" ++ "_" ++ date ++ ".log"),
          rotationMB := 200, retention := 5, level := Level.ERROR,
          filterCategory := category }),
       ("warning",
        { path := pathJoin (pathJoin log_path date)
            (category ++ "_" ++ "warning" ++ "_" ++ date ++ ".log"),
          rotationMB := 200, retention := 5, level := Level.WARNING,
          filterCategory := category }),
       ("info",
        { path := pathJoin (pathJoin log_path date)
            (category ++ "_" ++ "info" ++ "_" ++ date ++ ".log"),
          rotationMB := 200, retention := 5, level := Level.INFO,
          filterCategory := category }),
       ("debug",
        { path := pathJoin (pathJoin log_path date)
            (category ++ "_" ++ "debug" ++ "_" ++ date ++ ".log"),
          rotationMB := 200, retention := 5, level := Level.DEBUG,
          filterCategory := category })] ∧
    fileHandlerLevels st.file_handlers =
      [Level.ERROR, Level.WARNING, Level.INFO, Level.DEBUG] := by
  unfold logManagerInit at h
  cases hp : parseLevel (strUpper run_mode) with
  | none => rw [hp] at h; cases h
  | some lvl =>
      rw [hp] at h
      cases h
      exact ⟨rfl, rfl⟩

/-- C9 witness: constructing the manager with level INFO, category default
and date 2026-10-12 yields the sample state, whose four file sinks are as
the theorem describes. -/
theorem init_one_rotating_sink_per_level_witness :
    logManagerInit "./logs/" "INFO" "default" "2026-10-12" =
      Except.ok sampleState ∧
    fileHandlerLevels sampleState.file_handlers =
      [Level.ERROR, Level.WARNING, Level.INFO, Level.DEBUG] :=
  ⟨rfl,
   (init_one_rotating_sink_per_level "./logs/" "INFO" "default" "2026-10-12"
      sampleState rfl).2⟩

/-- C10: set_log_level and the constructor raise ValueError exactly on
level strings whose upper-casing is outside VALID_LEVELS, and a raising
set_log_level call leaves the manager state unchanged; a lowercase
spelling of a valid level (one whose upper-casing is a valid level name)
is accepted by both. -/
theorem invalid_level_raises_state_unchanged (st : LogManagerState)
    (bad good log_path category date : String) (L : Level)
    (hbad : strUpper bad ∉ VALID_LEVELS)
    (hgood : strUpper good = levelName L) :
    (setLogLevel st bad).1 = st ∧
    exceptOk (setLogLevel st bad).2 = false ∧
    exceptOk (logManagerInit log_path bad category date) = false ∧
    exceptOk (setLogLevel st good).2 = true ∧
    exceptOk (logManagerInit log_path good category date) = true := by
  have hbadp : parseLevel (strUpper bad) = none :=
    (parseLevel_eq_none_iff (strUpper bad)).mpr hbad
  have hgoodp : parseLevel (strUpper good) = some L := by
    rw [hgood]; exact parseLevel_levelName L
  refine ⟨?_, ?_, ?_, ?_, ?_⟩
  · unfold setLogLevel; rw [hbadp]
  · unfold setLogLevel; rw [hbadp]; rfl
  · unfold logManagerInit; rw [hbadp]; rfl
  · unfold setLogLevel; rw [hgoodp]
    by_cases hEq : st.run_mode = L <;> simp [hEq, exceptOk]
  · unfold logManagerInit; rw [hgoodp]; rfl

/-- C10 witness: on the sample state, VERBOSE is rejected with the state
unchanged, while the lowercase spelling debug is accepted by both
set_log_level and the constructor. -/
theorem invalid_level_raises_state_unchanged_witness :
    strUpper "VERBOSE" ∉ VALID_LEVELS ∧
    strUpper "debug" = levelName Level.DEBUG ∧
    ((setLogLevel sampleState "VERBOSE").1 = sampleState ∧
      exceptOk (setLogLevel sampleState "VERBOSE").2 = false ∧
      exceptOk (logManagerInit "./logs/" "VERBOSE" "default" "2026-10-12") = false ∧
      exceptOk (setLogLevel sampleState "debug").2 = true ∧
      exceptOk (logManagerInit "./logs/" "debug" "default" "2026-10-12") = true) :=
  ⟨by decide, by decide,
   invalid_level_raises_state_unchanged sampleState "VERBOSE" "debug" "./logs/"
     "default" "2026-10-12" Level.DEBUG (by decide) (by decide)⟩

end SAMRepo
